import Mathlib

/-!
Verification development for `src/Resources/Fonts/build_color_font.py`,
the ClipMate color-font build tool.  The Python program is shallowly
embedded: pure string manipulation (codepoint parsing and formatting,
name derivation, HTML templating) becomes Lean functions on `String` /
`List Char`; the filesystem and subprocess effects of the build pipeline
become explicit state passing over a record of booleans tracking which
temporary artifacts exist; fallible Python code (raising exceptions)
returns `Except`.
-/

namespace BuildColorFont

/-- Space character (code point 32), named so character literals with an
awkward glyph are avoided. -/
def spaceChar : Char := Char.ofNat 32

/-- Hyphen-minus character (code point 45). -/
def hyphenChar : Char := Char.ofNat 45

/-- Digit zero character (code point 48). -/
def zeroChar : Char := Char.ofNat 48

/-- Underscore character (code point 95); Python's `int(s, 16)` accepts
single underscores between digits. -/
def underscoreChar : Char := Char.ofNat 95

/-- Lowercase x (code point 120), the `0x` prefix marker. -/
def lowerXChar : Char := Char.ofNat 120

/-- Uppercase X (code point 88), the `0X` prefix marker. -/
def upperXChar : Char := Char.ofNat 88

/-- Plus sign (code point 43). -/
def plusChar : Char := Char.ofNat 43

/-- Hexadecimal value of a character as Python's `int(_, 16)` reads digits:
`0`-`9`, `a`-`f` and `A`-`F`; `none` for anything else. -/
def hexVal? (c : Char) : Option Nat :=
  if 48 ≤ c.toNat ∧ c.toNat ≤ 57 then some (c.toNat - 48)
  else if 97 ≤ c.toNat ∧ c.toNat ≤ 102 then some (c.toNat - 87)
  else if 65 ≤ c.toNat ∧ c.toNat ≤ 70 then some (c.toNat - 55)
  else none

/-- Digits after the first one, for Python's base-16 integer literal
grammar `digit (["_"] digit)*`: a single underscore may sit between two
digits, never doubled, leading or trailing. -/
def parseHexRest : Nat → List Char → Option Nat
  | acc, [] => some acc
  | acc, c :: rest =>
    if c = underscoreChar then
      match rest with
      | [] => none
      | c2 :: rest2 =>
        match hexVal? c2 with
        | some v => parseHexRest (acc * 16 + v) rest2
        | none => none
    else
      match hexVal? c with
      | some v => parseHexRest (acc * 16 + v) rest
      | none => none

/-- A nonempty run of hex digits (with interior underscores), as Python's
`int(_, 16)` requires after stripping sign and prefix. -/
def parseHexDigits : List Char → Option Nat
  | [] => none
  | c :: rest =>
    match hexVal? c with
    | some v => parseHexRest v rest
    | none => none

/-- Python's `str.strip()` step of `int`: surrounding whitespace is ignored. -/
def pyStrip (l : List Char) : List Char :=
  ((l.dropWhile Char.isWhitespace).reverse.dropWhile Char.isWhitespace).reverse

/-- Optional leading sign of a Python integer literal: `(negative?, rest)`. -/
def stripSign (l : List Char) : Bool × List Char :=
  match l with
  | [] => (false, [])
  | c :: r =>
    if c = hyphenChar then (true, r)
    else if c = plusChar then (false, r)
    else (false, c :: r)

/-- Optional `0x` / `0X` prefix of a base-16 Python literal; Python also
allows one underscore directly after the prefix (`int("0x_1f", 16)` is
legal), so that underscore is consumed here when a prefix was present. -/
def stripHexPrefix (l : List Char) : List Char :=
  match l with
  | c1 :: c2 :: r =>
    if c1 = zeroChar ∧ (c2 = lowerXChar ∨ c2 = upperXChar) then
      match r with
      | [] => []
      | c3 :: r2 => if c3 = underscoreChar then r2 else c3 :: r2
    else c1 :: c2 :: r
  | l => l

/-- Python's `int(s, 16)` on a string, as the script calls on codepoint
fields (`int(cp, 16)`): optional surrounding whitespace, optional sign,
optional `0x`/`0X` prefix, then hex digits with optional single interior
underscores.  `none` models the `ValueError` Python raises.  (Python also
accepts some non-ASCII digits and whitespace; those are outside this
model's scope, as the tool's configs are ASCII.) -/
def pyIntHex (s : String) : Option Int :=
  let l := pyStrip s.data
  let sl := stripSign l
  let l2 := stripHexPrefix sl.2
  match parseHexDigits l2 with
  | some n => some (if sl.1 then -(n : Int) else (n : Int))
  | none => none

/-- Lowercase hexadecimal digit character for a value below 16, as
Python's `x` format code prints digits. -/
def hexDigitLower (v : Nat) : Char :=
  if v < 10 then Char.ofNat (48 + v) else Char.ofNat (87 + v)

/-- Uppercase hexadecimal digit character for a value below 16, as
Python's `X` format code prints digits. -/
def hexDigitUpper (v : Nat) : Char :=
  if v < 10 then Char.ofNat (48 + v) else Char.ofNat (55 + v)

/-- Hex digits of `n`, most significant first, accumulated onto `acc`.
The first argument is recursion fuel (any amount at least `n` is
enough); structural recursion on it keeps the function computable by
the kernel. -/
def toHexAux (dig : Nat → Char) : Nat → Nat → List Char → List Char
  | 0, _, acc => acc
  | _ + 1, 0, acc => acc
  | fuel + 1, n + 1, acc => toHexAux dig fuel ((n + 1) / 16) (dig ((n + 1) % 16) :: acc)

/-- Hex digit list of a natural number, without padding: what Python's
`x` / `X` format codes print for the magnitude. -/
def natToHex (dig : Nat → Char) (n : Nat) : List Char :=
  if n = 0 then [dig 0] else toHexAux dig n n []

/-- Python's `f"{n:0{w}x}"` / `:0{w}X` formatting of an integer: magnitude
in hex, zero-padded on the left to total width `w`, the sign (for a
negative number) counting toward the width and preceding the padding. -/
def pyHexPad (dig : Nat → Char) (n : Int) (w : Nat) : String :=
  let mag := natToHex dig n.natAbs
  if n < 0 then ⟨hyphenChar :: (List.replicate (w - 1 - mag.length) zeroChar ++ mag)⟩
  else ⟨List.replicate (w - mag.length) zeroChar ++ mag⟩

/-- `f"{n:04x}"`: lowercase, width 4, as the scratch SVG filenames use. -/
def pyHex04x (n : Int) : String := pyHexPad hexDigitLower n 4

/-- `f"{n:04X}"`: uppercase, width 4, as the preview page uses. -/
def pyHex04X (n : Int) : String := pyHexPad hexDigitUpper n 4

/-- Python's `str.replace(old, new)` on the underlying character lists,
for a nonempty `old` (`o :: os`): all non-overlapping occurrences are
replaced, scanning left to right.  The `Nat` argument is recursion fuel
(any amount at least the list's length is enough), there only to make
the recursion structural and hence kernel-computable. -/
def pyReplaceAux (o : Char) (os new : List Char) : Nat → List Char → List Char
  | _, [] => []
  | 0, l => l
  | fuel + 1, c :: rest =>
    if (o :: os).isPrefixOf (c :: rest) then
      new ++ pyReplaceAux o os new fuel (rest.drop os.length)
    else
      c :: pyReplaceAux o os new fuel rest

/-- Python's `s.replace(old, new)`.  Every call in the script passes a
nonempty `old` (`" "`, `"glyf_colr_"`, `"_"`); for an empty `old` (where
Python would interleave `new` everywhere) the string is returned
unchanged, an input outside the modelled scope. -/
def pyReplace (s old new : String) : String :=
  match old.data with
  | [] => s
  | o :: os => ⟨pyReplaceAux o os new.data s.data.length s.data⟩

/-- Python's `s[:n]` slice on a string. -/
def pyTake (s : String) (n : Nat) : String := ⟨s.data.take n⟩

/-- Python's `s.ljust(n)`: pad on the right with spaces to length at
least `n`. -/
def pyLjust (s : String) (n : Nat) : String :=
  ⟨s.data ++ List.replicate (n - s.data.length) spaceChar⟩

/-! ## Data model

`FontConfig` mirrors the JSON configuration as the script reads it:
required keys become plain fields, keys read through `.get(key, default)`
become `Option` fields (the default is applied at each use site, exactly
as the script does).  A codepoint arrives either as a JSON integer or as
a hex string. -/

/-- A `codepoint` value from the configuration: JSON integer or string. -/
inductive CodepointVal where
  | int (n : Int)
  | str (s : String)
deriving DecidableEq

/-- One entry of the configuration's `glyphs` array.  `codepoint` and
`file` are accessed with `glyph["codepoint"]` / `glyph["file"]`
(required); `name` with `glyph.get("name", "unknown")`. -/
structure GlyphEntry where
  codepoint : CodepointVal
  file : String
  name : Option String
deriving DecidableEq

/-- The configuration's `font` object.  `name` is required
(`fc["name"]`); the rest are read with `.get`. -/
structure FontSection where
  name : String
  version : Option String
  description : Option String
  keywords : List String
  vendorId : Option String
  vendor : Option String
  designer : Option String
  designerUrl : Option String
  license : Option String
  licenseUrl : Option String
  copyright : Option String
deriving DecidableEq

/-- The configuration's `metrics` object (`config.get("metrics", {})`),
used only inside the TOML build description. -/
structure FontMetrics where
  unitsPerEm : Option Int
  ascent : Option Int
  descent : Option Int
deriving DecidableEq

/-- The whole parsed configuration. -/
structure FontConfig where
  font : FontSection
  metrics : FontMetrics
  colorFormat : Option String
  glyphs : List GlyphEntry
deriving DecidableEq

/-! ## Errors and fallible evaluation

The script does not define exception classes; it lets Python exceptions
propagate.  `BuildError` records the three raising sites of the build
stage: `shutil.copy` on a missing source (`FileNotFoundError`),
`int(cp, 16)` on an unparsable codepoint (`ValueError`), and
`subprocess.run(check=True)` on a non-zero exit
(`CalledProcessError`).  The spec's section 7 names the first two kinds
`GlyphResolutionError` and the third `CompilationError`. -/

/-- An exception of the build stage, by raising site. -/
inductive BuildError where
  | fileNotFound (file : String)
  | valueError (s : String)
  | calledProcessError (exitCode : Nat)
deriving DecidableEq

/-- The spec's `GlyphResolutionError` kind (section 7): a missing SVG
file or an unparsable codepoint. -/
def isGlyphResolutionError : BuildError → Bool
  | .fileNotFound _ => true
  | .valueError _ => true
  | .calledProcessError _ => false

/-- The spec's `CompilationError` kind (section 7): the external
compiler subprocess returned a non-zero exit status. -/
def isCompilationError : BuildError → Bool
  | .calledProcessError _ => true
  | _ => false

/-- Whether a fallible computation succeeded. -/
def exceptIsOk : Except ε α → Bool
  | .ok _ => true
  | .error _ => false

/-- Python's `for` loop building a list, aborting at the first raised
exception: effectful map over `Except`. -/
def mapExcept (f : α → Except ε β) : List α → Except ε (List β)
  | [] => .ok []
  | a :: l =>
    match f a with
    | .error e => .error e
    | .ok b =>
      match mapExcept f l with
      | .error e => .error e
      | .ok bs => .ok (b :: bs)

/-- Line 98 of the script:
`codepoint = int(cp, 16) if isinstance(cp, str) else cp`.  A failed
parse is Python's `ValueError`. -/
def resolveCodepoint : CodepointVal → Except BuildError Int
  | .int n => .ok n
  | .str s =>
    match pyIntHex s with
    | some n => .ok n
    | none => .error (.valueError s)

/-! ## Name table model (fontTools `name` table)

A naming-table entry is the (platform, encoding, language, nameID,
value) tuple; `font["name"].names` is the list of entries.  fontTools'
`setName` updates the first entry matching the full
(nameID, platformID, platEncID, langID) key, or appends a new entry. -/

/-- One record of the font's `name` table. -/
structure NameRecord where
  nameID : Nat
  platformID : Nat
  platEncID : Nat
  langID : Nat
  value : String
deriving DecidableEq

/-- Whether a record matches the full key `setName` looks up. -/
def recMatches (nameID pid eid lid : Nat) (r : NameRecord) : Bool :=
  r.nameID == nameID && r.platformID == pid && r.platEncID == eid && r.langID == lid

/-- Replace the value of the first record satisfying `p`; `none` when no
record does. -/
def replaceFirstValue (p : NameRecord → Bool) (v : String) :
    List NameRecord → Option (List NameRecord)
  | [] => none
  | r :: rest =>
    if p r then some ({ r with value := v } :: rest)
    else (replaceFirstValue p v rest).map (r :: ·)

/-- fontTools `name_table.setName(value, nameID, platformID, platEncID,
langID)`: update the first record with that key, else append one. -/
def setName (tbl : List NameRecord) (value : String) (nameID pid eid lid : Nat) :
    List NameRecord :=
  match replaceFirstValue (recMatches nameID pid eid lid) value tbl with
  | some tbl2 => tbl2
  | none => tbl ++ [⟨nameID, pid, eid, lid, value⟩]

/-- Lines 113-117 of the script, `set_name_record`: drop every record
with this `nameID`, then write the Windows entry `(3, 1, 0x409)` and the
Macintosh entry `(1, 0, 0x0)`, both with the same value. -/
def set_name_record (tbl : List NameRecord) (name_id : Nat) (value : String) :
    List NameRecord :=
  let tbl := tbl.filter (fun r => r.nameID != name_id)
  let tbl := setName tbl value name_id 3 1 0x409
  setName tbl value name_id 1 0 0x0

/-- Lines 29-45, the `NAME_IDS` dictionary.  Only the listed keys are
looked up by the script; the catch-all arm is unreachable from its
calls. -/
def NAME_IDS (key : String) : Nat :=
  match key with
  | "copyright" => 0
  | "family" => 1
  | "subfamily" => 2
  | "unique_id" => 3
  | "fullname" => 4
  | "version" => 5
  | "postscript_name" => 6
  | "trademark" => 7
  | "manufacturer" => 8
  | "designer" => 9
  | "description" => 11
  | "vendor_url" => 12
  | "designer_url" => 13
  | "license" => 14
  | "license_url" => 15
  | _ => 0

/-- Line 136: `postscript_name = name.replace(" ", "-")`. -/
def postscript_name (fc : FontSection) : String :=
  pyReplace fc.name " " "-"

/-- Line 137: `vendor_id = fc.get("vendorId", "NONE")[:4]`. -/
def vendor_id (fc : FontSection) : String :=
  pyTake (fc.vendorId.getD "NONE") 4

/-- Line 138: `unique_id = f"{vendor_id};{version};{postscript_name}"`. -/
def unique_id (fc : FontSection) : String :=
  vendor_id fc ++ ";" ++ fc.version.getD "1.0" ++ ";" ++ postscript_name fc

/-- Lines 132-134: the description, with a `Keywords:` line appended
when the keyword list is nonempty (`if keywords:`). -/
def full_description (fc : FontSection) : String :=
  let description := fc.description.getD ""
  if fc.keywords.isEmpty then description
  else description ++ "\nKeywords: " ++ String.intercalate ", " fc.keywords

/-- Lines 140-153 of `apply_metadata`, as the ordered
(nameID, value) list of its fourteen `set_name_record` calls. -/
def metadataFields (config : FontConfig) : List (Nat × String) :=
  let fc := config.font
  [(NAME_IDS "copyright", fc.copyright.getD ""),
   (NAME_IDS "family", fc.name),
   (NAME_IDS "subfamily", "Regular"),
   (NAME_IDS "unique_id", unique_id fc),
   (NAME_IDS "fullname", fc.name),
   (NAME_IDS "version", "Version " ++ fc.version.getD "1.0"),
   (NAME_IDS "postscript_name", postscript_name fc),
   (NAME_IDS "manufacturer", fc.vendor.getD ""),
   (NAME_IDS "designer", fc.designer.getD ""),
   (NAME_IDS "description", full_description fc),
   (NAME_IDS "vendor_url", fc.designerUrl.getD ""),
   (NAME_IDS "designer_url", fc.designerUrl.getD ""),
   (NAME_IDS "license", fc.license.getD ""),
   (NAME_IDS "license_url", fc.licenseUrl.getD "")]

/-- The identifiers of the fourteen naming fields `apply_metadata`
writes (the `trademark` slot, 7, is never written). -/
def writtenNameIDs : List Nat :=
  [0, 1, 2, 3, 4, 5, 6, 8, 9, 11, 12, 13, 14, 15]

/-- The in-memory font as the metadata writer touches it: the `name`
table, whether an `OS/2` table is present, and its vendor id field. -/
structure FontModel where
  nameTable : List NameRecord
  hasOS2 : Bool
  achVendID : Option String
deriving DecidableEq

/-- Lines 120-159, `apply_metadata`: rewrite the naming table
field-by-field via `set_name_record`, and overwrite `OS/2.achVendID`
with the vendor id space-padded to 4 characters when the table exists.
The font open / save I/O brackets the transformation and is elided. -/
def apply_metadata (font : FontModel) (config : FontConfig) : FontModel :=
  { nameTable :=
      (metadataFields config).foldl (fun t p => set_name_record t p.1 p.2) font.nameTable,
    hasOS2 := font.hasOS2,
    achVendID :=
      if font.hasOS2 then some (pyLjust (vendor_id config.font) 4) else font.achVendID }

/-! ## Build pipeline effects

The filesystem and subprocess effects of `build_with_nanoemoji` and
`build_font` are reduced to the facts the spec talks about: which
temporary artifacts currently exist, whether the external compiler was
invoked, and whether the two outputs were written.  The external
compiler's behaviour is a parameter (`compilerExit`), and an SVG source
directory is the list of filenames it contains. -/

/-- Observable filesystem facts of one run. -/
structure FSState where
  tomlExists : Bool
  scratchExists : Bool
  tempFontExists : Bool
  outputWritten : Bool
  previewWritten : Bool
  compilerInvoked : Bool
deriving DecidableEq

/-- The state before `build_font` touches anything. -/
def initState : FSState :=
  { tomlExists := false, scratchExists := false, tempFontExists := false,
    outputWritten := false, previewWritten := false, compilerInvoked := false }

/-- The scratch filename for a resolved codepoint, line 100:
`f"emoji_u{codepoint:04x}.svg"`. -/
def dstFilename (codepoint : Int) : String :=
  "emoji_u" ++ pyHex04x codepoint ++ ".svg"

/-- Lines 96-102, one iteration of the copy loop: resolve the codepoint
(possible `ValueError`), then copy `svg_dir/glyph["file"]` to the
scratch name (a missing source raises `FileNotFoundError`). -/
def copyOneGlyph (svgFiles : List String) (g : GlyphEntry) : Except BuildError String :=
  match resolveCodepoint g.codepoint with
  | .error e => .error e
  | .ok cp =>
    if g.file ∈ svgFiles then .ok (dstFilename cp)
    else .error (.fileNotFound g.file)

/-- Lines 53-110, `build_with_nanoemoji`, as its effect skeleton: write
the TOML build description (line 81), make the scratch directory
(line 94), copy each glyph's SVG under its codepoint name (96-102),
invoke the compiler (107, `CalledProcessError` on non-zero exit), and in
the `finally` block (108-110) remove the scratch directory and the TOML
document.  The TOML text itself and the nanoemoji executable lookup
(lines 61-91) have no bearing on the claims and are elided. -/
def build_with_nanoemoji (config : FontConfig) (svgFiles : List String)
    (compilerExit : Nat) (s : FSState) : Except BuildError Unit × FSState :=
  let s := { s with tomlExists := true }
  let s := { s with scratchExists := true }
  let body : Except BuildError Unit × FSState :=
    match mapExcept (copyOneGlyph svgFiles) config.glyphs with
    | .error e => (.error e, s)
    | .ok _ =>
      let s := { s with compilerInvoked := true }
      if compilerExit = 0 then (.ok (), s)
      else (.error (.calledProcessError compilerExit), s)
  (body.1, { body.2 with scratchExists := false, tomlExists := false })

/-! ## Preview generator (lines 162-562, `generate_preview_html`)

The HTML document is one Python f-string; concatenation below reproduces
it literally, split at the interpolation points.  Quotes, apostrophes and
braces inside the literals are written as hex escapes.  `cardChunkA-D`
come from the per-glyph card f-string (lines 174-178); `pv00`-`pv29` are
the literal runs of the page template (lines 196-556) in order. -/

def cardChunkA : String := "        <div class=\x22glyph-card\x22 title=\x22Click to copy codepoint\x22>\n          <span class=\x22glyph-icon\x22>"
def cardChunkB : String := "</span>\n          <div class=\x22glyph-name\x22>"
def cardChunkC : String := "</div>\n          <div class=\x22glyph-code\x22>"
def cardChunkD : String := "</div>\n        </div>"

def pv00 : String := "<!DOCTYPE html>\n<html lang=\x22en\x22>\n<head>\n  <meta charset=\x22UTF-8\x22>\n  <meta name=\x22viewport\x22 content=\x22width=device-width, initial-scale=1.0\x22>\n  <title>"
def pv01 : String := " Preview</title>\n  <style>\n    @font-face \x7b\n      font-family: \x27"
def pv02 : String := "\x27;\n      "
def pv03 : String := "\n    \x7d\n\n    * \x7b\n      margin: 0;\n      padding: 0;\n      box-sizing: border-box;\n    \x7d\n\n    body \x7b\n      font-family: -apple-system, BlinkMacSystemFont, \x27Segoe UI\x27, Roboto, Oxygen, Ubuntu, Cantarell, sans-serif;\n      min-height: 100vh;\n      padding: 2rem;\n      color: #333;\n    \x7d\n\n    .container \x7b\n      max-width: 1200px;\n      margin: 0 auto;\n      background: white;\n      border-radius: 1rem;\n      box-shadow: 0 20px 60px rgba(0, 0, 0, 0.3);\n      overflow: hidden;\n    \x7d\n\n    header \x7b\n      background: linear-gradient(135deg, #90caf9 0%, #03a9f4 100%);\n      color: white;\n      padding: 3rem 2rem;\n      text-align: center;\n    \x7d\n\n    header h1 \x7b\n      font-size: 2.5rem;\n      margin-bottom: 0.5rem;\n      font-weight: 700;\n    \x7d\n\n    header p \x7b\n      font-size: 1.1rem;\n      opacity: 0.9;\n    \x7d\n\n    .meta \x7b\n      padding: 2rem;\n      background: #f8f9fa;\n      border-bottom: 1px solid #e9ecef;\n      display: grid;\n      grid-template-columns: repeat(auto-fit, minmax(200px, 1fr));\n      gap: 1rem;\n    \x7d\n\n    .meta-item \x7b\n      display: flex;\n      flex-direction: column;\n      gap: 0.25rem;\n    \x7d\n\n    .meta-label \x7b\n      font-size: 0.75rem;\n      text-transform: uppercase;\n      font-weight: 600;\n      color: #6c757d;\n      letter-spacing: 0.05em;\n    \x7d\n\n    .meta-value \x7b\n      font-size: 1rem;\n      color: #212529;\n    \x7d\n\n    .content \x7b\n      padding: 2rem;\n    \x7d\n\n    .section-title \x7b\n      font-size: 1.5rem;\n      font-weight: 600;\n      margin-bottom: 1.5rem;\n      color: #212529;\n      padding-bottom: 0.5rem;\n      border-bottom: 2px solid #e9ecef;\n    \x7d\n\n    .glyph-grid \x7b\n      display: grid;\n      grid-template-columns: repeat(auto-fill, minmax(160px, 1fr));\n      gap: 1.5rem;\n      margin-bottom: 3rem;\n    \x7d\n\n    .glyph-card \x7b\n      background: #f8f9fa;\n      border: 2px solid #e9ecef;\n      border-radius: 0.5rem;\n      padding: 1.5rem;\n      text-align: center;\n      transition: all 0.2s ease;\n      cursor: pointer;\n    \x7d\n\n    .glyph-card:hover \x7b\n      border-color: #667eea;\n      box-shadow: 0 4px 12px rgba(102, 126, 234, 0.15);\n      transform: translateY(-2px);\n    \x7d\n\n    .glyph-icon \x7b\n      font-family: \x27"
def pv04 : String := "\x27;\n      font-size: 64px;\n      line-height: 1;\n      margin-bottom: 1rem;\n      display: block;\n    \x7d\n\n    .glyph-name \x7b\n      font-size: 0.875rem;\n      font-weight: 600;\n      color: #495057;\n      margin-bottom: 0.25rem;\n      word-wrap: break-word;\n    \x7d\n\n    .glyph-code \x7b\n      font-size: 0.75rem;\n      color: #6c757d;\n      font-family: \x27Courier New\x27, monospace;\n    \x7d\n\n    .size-demo \x7b\n      display: flex;\n      flex-wrap: wrap;\n      gap: 2rem;\n      justify-content: space-around;\n      align-items: center;\n      padding: 2rem;\n      background: #f8f9fa;\n      border-radius: 0.5rem;\n      margin-bottom: 3rem;\n    \x7d\n\n    .size-sample \x7b\n      text-align: center;\n    \x7d\n\n    .size-sample .icon \x7b\n      font-family: \x27"
def pv05 : String := "\x27;\n      display: block;\n      margin-bottom: 0.5rem;\n    \x7d\n\n    .size-sample .label \x7b\n      font-size: 0.75rem;\n      color: #6c757d;\n      font-weight: 600;\n    \x7d\n\n    .size-16 \x7b font-size: 16px; \x7d\n    .size-24 \x7b font-size: 24px; \x7d\n    .size-32 \x7b font-size: 32px; \x7d\n    .size-48 \x7b font-size: 48px; \x7d\n    .size-64 \x7b font-size: 64px; \x7d\n    .size-96 \x7b font-size: 96px; \x7d\n    .size-128 \x7b font-size: 128px; \x7d\n\n    .test-area \x7b\n      background: #f8f9fa;\n      border-radius: 0.5rem;\n      padding: 2rem;\n      margin-bottom: 3rem;\n    \x7d\n\n    .test-input \x7b\n      width: 100%;\n      padding: 1rem;\n      font-family: \x27"
def pv06 : String := "\x27, sans-serif;\n      font-size: 48px;\n      border: 2px solid #e9ecef;\n      border-radius: 0.5rem;\n      text-align: center;\n      transition: border-color 0.2s;\n    \x7d\n\n    .test-input:focus \x7b\n      outline: none;\n      border-color: #667eea;\n    \x7d\n\n    .test-hint \x7b\n      text-align: center;\n      margin-top: 1rem;\n      font-size: 0.875rem;\n      color: #6c757d;\n    \x7d\n\n    footer \x7b\n      background: #f8f9fa;\n      padding: 2rem;\n      text-align: center;\n      color: #6c757d;\n      font-size: 0.875rem;\n      border-top: 1px solid #e9ecef;\n    \x7d\n\n    footer a \x7b\n      color: #667eea;\n      text-decoration: none;\n      font-weight: 600;\n    \x7d\n\n    footer a:hover \x7b\n      text-decoration: underline;\n    \x7d\n\n    @media (max-width: 768px) \x7b\n      header h1 \x7b\n        font-size: 2rem;\n      \x7d\n\n      .glyph-grid \x7b\n        grid-template-columns: repeat(auto-fill, minmax(120px, 1fr));\n        gap: 1rem;\n      \x7d\n\n      .size-demo \x7b\n        gap: 1rem;\n      \x7d\n    \x7d\n  </style>\n</head>\n<body>\n  <div class=\x22container\x22>\n    <header>\n      <h1>"
def pv07 : String := "</h1>\n      <p>"
def pv08 : String := "</p>\n    </header>\n\n    <div class=\x22meta\x22>\n      <div class=\x22meta-item\x22>\n        <span class=\x22meta-label\x22>Font Name</span>\n        <span class=\x22meta-value\x22>"
def pv09 : String := "</span>\n      </div>\n      <div class=\x22meta-item\x22>\n        <span class=\x22meta-label\x22>Version</span>\n        <span class=\x22meta-value\x22>"
def pv10 : String := "</span>\n      </div>\n      <div class=\x22meta-item\x22>\n        <span class=\x22meta-label\x22>Designer</span>\n        <span class=\x22meta-value\x22>"
def pv11 : String := "</span>\n      </div>\n      <div class=\x22meta-item\x22>\n        <span class=\x22meta-label\x22>Glyphs</span>\n        <span class=\x22meta-value\x22>"
def pv12 : String := " icons</span>\n      </div>\n      <div class=\x22meta-item\x22>\n        <span class=\x22meta-label\x22>Format</span>\n        <span class=\x22meta-value\x22>"
def pv13 : String := "</span>\n      </div>\n      <div class=\x22meta-item\x22>\n        <span class=\x22meta-label\x22>License</span>\n        <span class=\x22meta-value\x22>"
def pv14 : String := "</span>\n      </div>\n    </div>\n\n    <div class=\x22content\x22>\n      <h2 class=\x22section-title\x22>All Glyphs</h2>\n      <div class=\x22glyph-grid\x22>\n"
def pv15 : String := "\n      </div>\n\n      <h2 class=\x22section-title\x22>Size Demonstration</h2>\n      <div class=\x22size-demo\x22>\n        <div class=\x22size-sample\x22>\n          <span class=\x22icon size-16\x22>"
def pv16 : String := "</span>\n          <span class=\x22label\x22>16px</span>\n        </div>\n        <div class=\x22size-sample\x22>\n          <span class=\x22icon size-24\x22>"
def pv17 : String := "</span>\n          <span class=\x22label\x22>24px</span>\n        </div>\n        <div class=\x22size-sample\x22>\n          <span class=\x22icon size-32\x22>"
def pv18 : String := "</span>\n          <span class=\x22label\x22>32px</span>\n        </div>\n        <div class=\x22size-sample\x22>\n          <span class=\x22icon size-48\x22>"
def pv19 : String := "</span>\n          <span class=\x22label\x22>48px</span>\n        </div>\n        <div class=\x22size-sample\x22>\n          <span class=\x22icon size-64\x22>"
def pv20 : String := "</span>\n          <span class=\x22label\x22>64px</span>\n        </div>\n        <div class=\x22size-sample\x22>\n          <span class=\x22icon size-96\x22>"
def pv21 : String := "</span>\n          <span class=\x22label\x22>96px</span>\n        </div>\n        <div class=\x22size-sample\x22>\n          <span class=\x22icon size-128\x22>"
def pv22 : String := "</span>\n          <span class=\x22label\x22>128px</span>\n        </div>\n      </div>\n\n      <h2 class=\x22section-title\x22>Test Area</h2>\n      <div class=\x22test-area\x22>\n        <input type=\x22text\x22 class=\x22test-input\x22 placeholder=\x22Type or paste codepoints here...\x22 \n               value=\x22"
def pv23 : String := "\x22>\n        <div class=\x22test-hint\x22>\n          Try pasting: "
def pv24 : String := "\n        </div>\n      </div>\n    </div>\n\n    <footer>\n      <p>\n        <strong>"
def pv25 : String := "</strong> • "
def pv26 : String := "<br>\n        Licensed under the <a href=\x22"
def pv27 : String := "\x22 target=\x22_blank\x22>"
def pv28 : String := "</a> •\n        <a href=\x22"
def pv29 : String := "\x22 target=\x22_blank\x22>View on GitHub</a>\n      </p>\n    </footer>\n  </div>\n\n  <script>\n    // Copy codepoint to clipboard on card click\n    document.querySelectorAll(\x27.glyph-card\x27).forEach(card => \x7b\n      card.addEventListener(\x27click\x27, function() \x7b\n        const code = this.querySelector(\x27.glyph-code\x27).textContent;\n        navigator.clipboard.writeText(code).then(() => \x7b\n          const originalBorder = this.style.borderColor;\n          this.style.borderColor = \x27#28a745\x27;\n          setTimeout(() => \x7b\n            this.style.borderColor = originalBorder;\n          \x7d, 500);\n        \x7d);\n      \x7d);\n    \x7d);\n\n    // Allow HTML entities in test input\n    const testInput = document.querySelector(\x27.test-input\x27);\n    testInput.addEventListener(\x27input\x27, function(e) \x7b\n      const value = this.value;\n      const decoded = value.replace(/&#x([0-9A-Fa-f]+);/g, (match, hex) => \n        String.fromCharCode(parseInt(hex, 16))\n      );\n      if (decoded !== value) \x7b\n        const start = this.selectionStart;\n        this.value = decoded;\n        this.setSelectionRange(start, start);\n      \x7d\n    \x7d);\n  </script>\n</body>\n</html>"

/-- The fixed URL the page's single `@font-face` rule loads, line 205 of
the template: it does not depend on the output path the CLI was given. -/
def previewFontUrl : String := "ClipMate.ttf"

/-- The `@font-face` source line of the template, built around
`previewFontUrl`. -/
def fontSrcLine : String := "src: url(\x27" ++ previewFontUrl ++ "\x27);"

/-- The character reference `&#x{cp:04X};` used by glyph cards, the size
demo and the test input. -/
def charRef (cp : Int) : String := "&#x" ++ pyHex04X cp ++ ";"

/-- The `U+{cp:04X}` label of a glyph card. -/
def uLabel (cp : Int) : String := "U+" ++ pyHex04X cp

/-- One glyph card (lines 174-178) for a resolved codepoint and display
name. -/
def glyphCardString (cp : Int) (nm : String) : String :=
  cardChunkA ++ charRef cp ++ cardChunkB ++ nm ++ cardChunkC ++ uLabel cp ++ cardChunkD

/-- Lines 170-178: one card per glyph, resolving the codepoint again
(`int(cp, 16)` may raise) and defaulting the name to `"unknown"`. -/
def glyphCardOf (g : GlyphEntry) : Except BuildError String :=
  match resolveCodepoint g.codepoint with
  | .error e => .error e
  | .ok cp => .ok (glyphCardString cp (g.name.getD "unknown"))

/-- The escaped entity form `&amp;#x{cp:04X};` in the test hint,
line 194. -/
def ampRef (cp : Int) : String := "&amp;#x" ++ pyHex04X cp ++ ";"

/-- Everything of the page before `{glyph_cards_html}`: the head, CSS,
header and metadata grid, with the configuration fields interpolated
exactly as lines 196-471 do. -/
def previewPrefix (config : FontConfig) : String :=
  let fc := config.font
  let nm := fc.name
  pv00 ++ nm ++ pv01 ++ nm ++ pv02 ++ fontSrcLine ++ pv03 ++ nm ++ pv04 ++ nm ++ pv05 ++
    nm ++ pv06 ++ nm ++ pv07 ++ fc.description.getD "Color Emoji Icons" ++ pv08 ++ nm ++
    pv09 ++ fc.version.getD "1.0" ++ pv10 ++ fc.designer.getD "Unknown" ++ pv11 ++
    toString config.glyphs.length ++ pv12 ++
    pyReplace (pyReplace (config.colorFormat.getD "glyf_colr_1") "glyf_colr_" "COLR v") "_" " " ++
    pv13 ++ fc.license.getD "Unknown" ++ pv14

/-- Everything of the page after `{glyph_cards_html}`: size demo, test
area, footer and script, lines 473-556. -/
def previewSuffix (config : FontConfig) (first_codepoint : Int)
    (test_value test_hint : String) : String :=
  let fc := config.font
  let fcp := charRef first_codepoint
  pv15 ++ fcp ++ pv16 ++ fcp ++ pv17 ++ fcp ++ pv18 ++ fcp ++ pv19 ++ fcp ++ pv20 ++
    fcp ++ pv21 ++ fcp ++ pv22 ++ test_value ++ pv23 ++ test_hint ++ pv24 ++ fc.name ++
    pv25 ++ fc.copyright.getD "" ++ pv26 ++ fc.licenseUrl.getD "#" ++ pv27 ++
    fc.license.getD "Unknown License" ++ pv28 ++ fc.designerUrl.getD "#" ++ pv29

/-- Lines 162-562, `generate_preview_html`, up to the final file write:
the document's text.  Evaluation order follows the source: the glyph
cards (170-180), the first glyph's codepoint with the `"0xE000"` default
(183-185), the test-input value from the first five glyphs (188-193) and
the escaped hint (194), then the big f-string.  Each `int(cp, 16)` can
raise, modelled by `Except`. -/
def generate_preview_html (config : FontConfig) : Except BuildError String :=
  match mapExcept glyphCardOf config.glyphs with
  | .error e => .error e
  | .ok cards =>
    let glyph_cards_html := String.intercalate "\n" cards
    let firstCpVal :=
      match config.glyphs with
      | [] => CodepointVal.str "0xE000"
      | g :: _ => g.codepoint
    match resolveCodepoint firstCpVal with
    | .error e => .error e
    | .ok first_codepoint =>
      match mapExcept (fun g =>
          match resolveCodepoint g.codepoint with
          | .error e => .error e
          | .ok cp => .ok (charRef cp)) (config.glyphs.take 5) with
      | .error e => .error e
      | .ok testRefs =>
        let test_value := String.join testRefs
        match mapExcept (fun g =>
            match resolveCodepoint g.codepoint with
            | .error e => .error e
            | .ok cp => .ok (ampRef cp)) (config.glyphs.take 5) with
        | .error e => .error e
        | .ok hintRefs =>
          let test_hint := String.intercalate " " hintRefs
          .ok (previewPrefix config ++ glyph_cards_html ++
            previewSuffix config first_codepoint test_value test_hint)

/-- Lines 565-586, `build_font`: make the temporary font path
(`NamedTemporaryFile`), run the compiler stage, apply metadata to the
output path, generate the preview, and in the `finally` block unlink the
temporary font.  Returns the outcome, the final filesystem facts, and
the preview text when one was written.  Loading the configuration and
the metadata rewrite itself are covered by `apply_metadata`; font I/O is
assumed to succeed (its failures are outside the claims). -/
def build_font (config : FontConfig) (svgFiles : List String) (compilerExit : Nat)
    (outputPath : String) : Except BuildError Unit × FSState × Option String :=
  let _ := outputPath
  let s := { initState with tempFontExists := true }
  let afterTry : Except BuildError Unit × FSState × Option String :=
    match build_with_nanoemoji config svgFiles compilerExit s with
    | (.error e, s2) => (.error e, s2, none)
    | (.ok _, s2) =>
      let s3 := { s2 with outputWritten := true }
      match generate_preview_html config with
      | .error e => (.error e, s3, none)
      | .ok html => (.ok (), { s3 with previewWritten := true }, some html)
  (afterTry.1, { afterTry.2.1 with tempFontExists := false }, afterTry.2.2)

/-! ## Auxiliary notions used to state the claims -/

/-- `s` occurs as a contiguous substring of `t`. -/
def substrOf (s t : String) : Prop := ∃ p q, t = p ++ s ++ q

/-- Modelled from the spec's words "font name with spaces removed"
(section 4.3): the postscript name the spec describes.  It exists only
to be compared with the code's `postscript_name`; the code itself uses
`name.replace(" ", "-")`. -/
def specRemoveSpaces (s : String) : String :=
  ⟨s.data.filter (fun c => c != spaceChar)⟩

/-- Numeric value of a list of hex digit characters, most significant
first. -/
def hexListVal (l : List Char) : Nat :=
  l.foldl (fun a c => a * 16 + (hexVal? c).getD 0) 0

/-- The sixteen lowercase hexadecimal digit characters. -/
def lowerHexChars : List Char := "0123456789abcdef".data

/-- A small concrete configuration exercised by the witnesses: the
spec's own example scenario (section 8), extended with two more
glyphs. -/
def exampleConfig : FontConfig :=
  { font := { name := "Test Icons", version := some "2.0", description := none,
              keywords := [], vendorId := none, vendor := none, designer := some "Jo",
              designerUrl := none, license := some "MIT", licenseUrl := none,
              copyright := some "(c) 2025" },
    metrics := { unitsPerEm := none, ascent := none, descent := none },
    colorFormat := some "glyf_colr_1",
    glyphs := [
      { codepoint := .str "0xE001", file := "a.svg", name := some "star" },
      { codepoint := .int 57346, file := "b.svg", name := some "moon" },
      { codepoint := .str "0x1F600", file := "c.svg", name := none }] }

/-- The SVG directory contents matching `exampleConfig`. -/
def exampleSvgFiles : List String := ["a.svg", "b.svg", "c.svg"]

/-- A compiled font as it might arrive at the metadata writer, with some
pre-existing naming entries. -/
def exampleFont : FontModel :=
  { nameTable := [⟨1, 3, 1, 0x409, "Old Family"⟩, ⟨3, 1, 0, 0, "Old Id"⟩,
                  ⟨1, 1, 0, 0, "Old Mac Family"⟩],
    hasOS2 := true,
    achVendID := some "ABCD" }

/-! ## Theorems

Helper lemmas come first, then one theorem per claim (with its witness
or counterexample where required). -/

/-- Replacing a single-character pattern is a character-wise map. -/
theorem pyReplaceAux_single (o n : Char) :
    ∀ (l : List Char) (fuel : Nat), l.length ≤ fuel →
      pyReplaceAux o [] [n] fuel l = l.map (fun c => if c = o then n else c) := by
  intro l
  induction l with
  | nil => intro fuel _; cases fuel <;> simp [pyReplaceAux]
  | cons c rest ih =>
    intro fuel hfuel
    match fuel, hfuel with
    | f + 1, hfuel =>
      have hr : rest.length ≤ f := by
        simp only [List.length_cons] at hfuel; omega
      by_cases hc : c = o
      · subst hc
        simp [pyReplaceAux, List.isPrefixOf, ih f hr]
      · have hbeq : (o == c) = false := by
          simp [beq_eq_false_iff_ne]
          exact fun h => hc h.symm
        simp [pyReplaceAux, List.isPrefixOf, hbeq, ih f hr, hc]

/-- Claim C1, as stated, is false of the code: for the configured name
"Test Icons" the metadata writer derives the postscript name
"Test-Icons" (line 136 replaces each space with a hyphen), not the
spec's space-free concatenation "TestIcons". -/
theorem C1_counterexample :
    postscript_name exampleConfig.font = "Test-Icons" ∧
    specRemoveSpaces exampleConfig.font.name = "TestIcons" ∧
    postscript_name exampleConfig.font ≠ specRemoveSpaces exampleConfig.font.name := by
  refine ⟨by decide, by decide, by decide⟩

/-- Claim C1 (amended): the derived `postscript_name` equals the
configured font name with every space character replaced by a hyphen;
in particular it contains no space characters. -/
theorem C1_postscript_name_space_free (fc : FontSection) :
    postscript_name fc =
      ⟨fc.name.data.map (fun c => if c = spaceChar then hyphenChar else c)⟩ ∧
    (postscript_name fc).data.all (fun c => c != spaceChar) = true := by
  have hdata : (" " : String).data = [spaceChar] := by decide
  have hmap : postscript_name fc =
      ⟨fc.name.data.map (fun c => if c = spaceChar then hyphenChar else c)⟩ := by
    show pyReplace fc.name " " "-" = _
    rw [pyReplace, hdata]
    have hrep : ("-" : String).data = [hyphenChar] := by decide
    rw [hrep]
    show (⟨pyReplaceAux spaceChar [] [hyphenChar] fc.name.data.length fc.name.data⟩ : String) = _
    rw [pyReplaceAux_single spaceChar hyphenChar fc.name.data fc.name.data.length
      (Nat.le_refl _)]
  refine ⟨hmap, ?_⟩
  rw [hmap]
  simp only [List.all_eq_true]
  intro c hc
  simp only [List.mem_map] at hc
  obtain ⟨a, _, ha⟩ := hc
  by_cases h : a = spaceChar
  · simp [h] at ha
    rw [← ha]
    decide
  · simp [h] at ha
    rw [← ha]
    simp [bne_iff_ne]
    exact h

/-- Everything needed about a lowercase hex digit character: its value
parses back, it is no whitespace, sign, prefix or underscore character,
and it is one of the sixteen lowercase digits. -/
theorem hexDigitLower_facts : ∀ v, v < 16 →
    hexVal? (hexDigitLower v) = some v ∧
    (hexDigitLower v).isWhitespace = false ∧
    hexDigitLower v ≠ hyphenChar ∧ hexDigitLower v ≠ plusChar ∧
    hexDigitLower v ≠ lowerXChar ∧ hexDigitLower v ≠ upperXChar ∧
    hexDigitLower v ≠ underscoreChar ∧ hexDigitLower v ∈ lowerHexChars := by
  decide

/-- `foldl` of the digit-accumulation step from an arbitrary
accumulator. -/
theorem hexListVal_from (l : List Char) :
    ∀ a, l.foldl (fun a c => a * 16 + (hexVal? c).getD 0) a =
      a * 16 ^ l.length + hexListVal l := by
  induction l with
  | nil => intro a; simp [hexListVal]
  | cons c r ih =>
    intro a
    show r.foldl _ (a * 16 + (hexVal? c).getD 0) = _
    rw [ih]
    have h0 : hexListVal (c :: r) = ((hexVal? c).getD 0) * 16 ^ r.length + hexListVal r := by
      show r.foldl _ (0 * 16 + (hexVal? c).getD 0) = _
      rw [ih]
      ring
    rw [h0]
    simp [List.length_cons]
    ring

/-- Digit-list value of an append. -/
theorem hexListVal_append (l1 l2 : List Char) :
    hexListVal (l1 ++ l2) = hexListVal l1 * 16 ^ l2.length + hexListVal l2 := by
  show (l1 ++ l2).foldl _ 0 = _
  rw [List.foldl_append, hexListVal_from]
  rfl

/-- Leading zeros contribute nothing to the value. -/
theorem hexListVal_zeros (k : Nat) :
    hexListVal (List.replicate k zeroChar) = 0 := by
  induction k with
  | zero => rfl
  | succ k ih =>
    show (List.replicate (k + 1) zeroChar).foldl _ 0 = 0
    rw [List.replicate_succ]
    have : hexVal? zeroChar = some 0 := by decide
    simpa [List.foldl_cons, this] using ih

/-- `toHexAux` is independent of the fuel (as long as it suffices) and
linear in the accumulator. -/
theorem toHexAux_acc (dig : Nat → Char) :
    ∀ n, ∀ fuel, n ≤ fuel → ∀ acc,
      toHexAux dig fuel n acc = toHexAux dig n n [] ++ acc := by
  intro n
  induction n using Nat.strong_induction_on with
  | _ n ih =>
    intro fuel hfuel acc
    match n, fuel with
    | 0, 0 => simp [toHexAux]
    | 0, f + 1 => simp [toHexAux]
    | m + 1, f + 1 =>
      have hq : (m + 1) / 16 < m + 1 := Nat.div_lt_self (Nat.succ_pos m) (by omega)
      have hqf : (m + 1) / 16 ≤ f := by omega
      have hqm : (m + 1) / 16 ≤ m := by omega
      show toHexAux dig (f + 1) (m + 1) acc = toHexAux dig (m + 1) (m + 1) [] ++ acc
      rw [show toHexAux dig (f + 1) (m + 1) acc =
            toHexAux dig f ((m + 1) / 16) (dig ((m + 1) % 16) :: acc) from rfl,
          show toHexAux dig (m + 1) (m + 1) [] =
            toHexAux dig m ((m + 1) / 16) ([dig ((m + 1) % 16)]) from rfl,
          ih _ hq f hqf, ih _ hq m hqm]
      simp

/-- The unpadded lowercase hex digits of `n`: nonempty, all lowercase
hex digits, and their value is `n` again. -/
theorem natToHex_spec (n : Nat) :
    hexListVal (natToHex hexDigitLower n) = n ∧
    natToHex hexDigitLower n ≠ [] ∧
    ∀ c ∈ natToHex hexDigitLower n, ∃ v, v < 16 ∧ c = hexDigitLower v := by
  induction n using Nat.strong_induction_on with
  | _ n ih =>
    match n with
    | 0 =>
      refine ⟨by decide, by decide, ?_⟩
      intro c hc
      simp [natToHex] at hc
      exact ⟨0, by omega, hc⟩
    | m + 1 =>
      have hq : (m + 1) / 16 < m + 1 := Nat.div_lt_self (Nat.succ_pos m) (by omega)
      have hqm : (m + 1) / 16 ≤ m := by omega
      have hunfold : natToHex hexDigitLower (m + 1) =
          toHexAux hexDigitLower m ((m + 1) / 16) [hexDigitLower ((m + 1) % 16)] := by
        simp [natToHex, toHexAux]
      have hmod : (m + 1) % 16 < 16 := Nat.mod_lt _ (by omega)
      have hdig := hexDigitLower_facts ((m + 1) % 16) hmod
      by_cases hq0 : (m + 1) / 16 = 0
      · have h1 : natToHex hexDigitLower (m + 1) = [hexDigitLower ((m + 1) % 16)] := by
          rw [hunfold, hq0]
          cases m <;> simp [toHexAux]
        refine ⟨?_, by simp [h1], ?_⟩
        · rw [h1]
          show 0 * 16 + (hexVal? (hexDigitLower ((m + 1) % 16))).getD 0 = m + 1
          rw [hdig.1]
          simp
          omega
        · intro c hc
          rw [h1] at hc
          simp at hc
          exact ⟨(m + 1) % 16, hmod, hc⟩
      · have hrec := ih _ hq
        have h1 : natToHex hexDigitLower (m + 1) =
            natToHex hexDigitLower ((m + 1) / 16) ++ [hexDigitLower ((m + 1) % 16)] := by
          rw [hunfold, toHexAux_acc hexDigitLower _ m hqm, natToHex, if_neg hq0]
        refine ⟨?_, by simp [h1], ?_⟩
        · rw [h1, hexListVal_append, hrec.1]
          have : hexListVal [hexDigitLower ((m + 1) % 16)] = (m + 1) % 16 := by
            show 0 * 16 + (hexVal? (hexDigitLower ((m + 1) % 16))).getD 0 = (m + 1) % 16
            rw [hdig.1]
            simp
          rw [this]
          simp
          omega
        · intro c hc
          rw [h1] at hc
          simp at hc
          rcases hc with hc | hc
          · exact hrec.2.2 c hc
          · exact ⟨(m + 1) % 16, hmod, hc⟩

/-- On a run of plain hex digits (no underscores), `parseHexRest` folds
up the digit values. -/
theorem parseHexRest_all (l : List Char)
    (h : ∀ c ∈ l, (hexVal? c).isSome ∧ c ≠ underscoreChar) :
    ∀ a, parseHexRest a l = some (l.foldl (fun a c => a * 16 + (hexVal? c).getD 0) a) := by
  induction l with
  | nil => intro a; simp [parseHexRest]
  | cons c r ih =>
    intro a
    have hc := h c (by simp)
    obtain ⟨v, hv⟩ := Option.isSome_iff_exists.mp hc.1
    have heq : parseHexRest a (c :: r) = parseHexRest (a * 16 + v) r := by
      rw [parseHexRest.eq_def]
      simp [hc.2, hv]
    rw [heq]
    rw [ih (fun c hcm => h c (by simp [hcm]))]
    simp [hv]

/-- On a nonempty run of plain hex digits, `parseHexDigits` returns
their value. -/
theorem parseHexDigits_all (l : List Char) (hne : l ≠ [])
    (h : ∀ c ∈ l, (hexVal? c).isSome ∧ c ≠ underscoreChar) :
    parseHexDigits l = some (hexListVal l) := by
  match l, hne with
  | c :: r, _ =>
    have hc := h c (by simp)
    obtain ⟨v, hv⟩ := Option.isSome_iff_exists.mp hc.1
    have heq : parseHexDigits (c :: r) = parseHexRest v r := by
      rw [parseHexDigits.eq_def]
      simp [hv]
    rw [heq]
    rw [parseHexRest_all r (fun c hcm => h c (by simp [hcm]))]
    have : hexListVal (c :: r) =
        r.foldl (fun a c => a * 16 + (hexVal? c).getD 0) v := by
      show (c :: r).foldl _ 0 = _
      simp [List.foldl_cons, hv]
    rw [this]

/-- `dropWhile` is the identity when no element satisfies the
predicate. -/
theorem dropWhile_all_false (p : Char → Bool) :
    ∀ l : List Char, (∀ c ∈ l, p c = false) → List.dropWhile p l = l := by
  intro l h
  match l with
  | [] => rfl
  | c :: r => simp [List.dropWhile_cons, h c (by simp)]

/-- `pyStrip` is the identity on whitespace-free text. -/
theorem pyStrip_all (l : List Char) (h : ∀ c ∈ l, Char.isWhitespace c = false) :
    pyStrip l = l := by
  unfold pyStrip
  rw [dropWhile_all_false _ l h]
  rw [dropWhile_all_false _ l.reverse (fun c hc => h c (List.mem_reverse.mp hc))]
  exact List.reverse_reverse l

/-- `stripHexPrefix` leaves a list alone when it does not start with a
`0x` / `0X` prefix. -/
theorem stripHexPrefix_no (c0 c1 : Char) (t : List Char)
    (h : ¬ (c0 = zeroChar ∧ (c1 = lowerXChar ∨ c1 = upperXChar))) :
    stripHexPrefix (c0 :: c1 :: t) = c0 :: c1 :: t := by
  have hred : stripHexPrefix (c0 :: c1 :: t) =
      if c0 = zeroChar ∧ (c1 = lowerXChar ∨ c1 = upperXChar) then
        (match t with
         | [] => []
         | c3 :: r2 => if c3 = underscoreChar then r2 else c3 :: r2)
      else c0 :: c1 :: t := rfl
  rw [hred, if_neg h]

/-- `stripSign` leaves a list alone when it does not start with a
sign. -/
theorem stripSign_no (c0 : Char) (t : List Char)
    (h1 : c0 ≠ hyphenChar) (h2 : c0 ≠ plusChar) :
    stripSign (c0 :: t) = (false, c0 :: t) := by
  have hred : stripSign (c0 :: t) =
      if c0 = hyphenChar then (true, t)
      else if c0 = plusChar then (false, t)
      else (false, c0 :: t) := rfl
  rw [hred, if_neg h1, if_neg h2]

/-- The zero-padded lowercase hex rendering of a natural number is at
least four characters long, consists of lowercase hex digits only, and
parsing it back with `int(_, 16)` recovers the number. -/
theorem pyHex04x_spec (n : Nat) :
    4 ≤ (pyHex04x (n : Int)).data.length ∧
    (∀ c ∈ (pyHex04x (n : Int)).data, c ∈ lowerHexChars) ∧
    pyIntHex (pyHex04x (n : Int)) = some (n : Int) := by
  obtain ⟨hval, hne, hdigits⟩ := natToHex_spec n
  set mag := natToHex hexDigitLower n with hmag
  set L := List.replicate (4 - mag.length) zeroChar ++ mag with hL
  have hdata : (pyHex04x (n : Int)).data = L := by
    show (pyHexPad hexDigitLower (n : Int) 4).data = L
    rw [pyHexPad]
    have hneg : ¬ ((n : Int) < 0) := by omega
    rw [if_neg hneg]
    simp [hL, hmag]
  have hmlen : 1 ≤ mag.length := List.length_pos.mpr hne
  have hlen : 4 ≤ L.length := by
    rw [hL, List.length_append, List.length_replicate]
    omega
  have hall : ∀ c ∈ L, ∃ v, v < 16 ∧ c = hexDigitLower v := by
    intro c hc
    rw [hL] at hc
    rcases List.mem_append.mp hc with hc | hc
    · exact ⟨0, by omega, (List.eq_of_mem_replicate hc).trans (by decide)⟩
    · exact hdigits c hc
  refine ⟨by rw [hdata]; exact hlen, ?_, ?_⟩
  · intro c hc
    rw [hdata] at hc
    obtain ⟨v, hv, hcv⟩ := hall c hc
    rw [hcv]
    exact (hexDigitLower_facts v hv).2.2.2.2.2.2.2
  · have hnows : ∀ c ∈ L, Char.isWhitespace c = false := by
      intro c hc
      obtain ⟨v, hv, hcv⟩ := hall c hc
      rw [hcv]
      exact (hexDigitLower_facts v hv).2.1
    have hstrip : pyStrip L = L := pyStrip_all L hnows
    obtain ⟨c0, c1, t, hshape⟩ : ∃ c0 c1 t, L = c0 :: c1 :: t := by
      match L, hlen with
      | c0 :: c1 :: t, _ => exact ⟨c0, c1, t, rfl⟩
    have hc0 := hall c0 (by rw [hshape]; simp)
    have hc1 := hall c1 (by rw [hshape]; simp)
    obtain ⟨v0, hv0, hcv0⟩ := hc0
    obtain ⟨v1, hv1, hcv1⟩ := hc1
    have hsign : stripSign L = (false, L) := by
      rw [hshape]
      exact stripSign_no c0 (c1 :: t)
        (by rw [hcv0]; exact (hexDigitLower_facts v0 hv0).2.2.1)
        (by rw [hcv0]; exact (hexDigitLower_facts v0 hv0).2.2.2.1)
    have hpfx : stripHexPrefix L = L := by
      rw [hshape]
      refine stripHexPrefix_no c0 c1 t ?_
      rintro ⟨-, h1⟩
      rcases h1 with h1 | h1
      · exact absurd (hcv1 ▸ h1) (hexDigitLower_facts v1 hv1).2.2.2.2.1
      · exact absurd (hcv1 ▸ h1) (hexDigitLower_facts v1 hv1).2.2.2.2.2.1
    have hparse : parseHexDigits L = some (hexListVal L) := by
      refine parseHexDigits_all L (by rw [hshape]; simp) ?_
      intro c hc
      obtain ⟨v, hv, hcv⟩ := hall c hc
      rw [hcv]
      exact ⟨by rw [(hexDigitLower_facts v hv).1]; rfl,
        (hexDigitLower_facts v hv).2.2.2.2.2.2.1⟩
    have hLval : hexListVal L = n := by
      rw [hL, hexListVal_append, hexListVal_zeros, hval]
      simp
    have hout : pyIntHex (pyHex04x (n : Int)) =
        match parseHexDigits
            (stripHexPrefix (stripSign (pyStrip (pyHex04x (n : Int)).data)).2) with
        | some m =>
          some (if (stripSign (pyStrip (pyHex04x (n : Int)).data)).1
            then -(m : Int) else (m : Int))
        | none => none := rfl
    rw [hout, hdata, hstrip, hsign]
    show (match parseHexDigits (stripHexPrefix L) with
      | some m => some (if false = true then -(m : Int) else (m : Int))
      | none => none) = some (n : Int)
    rw [hpfx, hparse]
    simp [hLval]

/-- Claim C6: codepoint resolution is form-independent.  The hex string
"0x1F600" and the integer 128512 resolve to the same codepoint and hence
to the identical scratch filename `emoji_u1f600.svg`; in general the
scratch filename embeds `{codepoint:04x}`, which is at least four
characters of lowercase hexadecimal whose parse recovers the resolved
integer. -/
theorem C6_codepoint_form_independence (n : Nat) :
    resolveCodepoint (.str "0x1F600") = .ok 128512 ∧
    resolveCodepoint (.int 128512) = .ok 128512 ∧
    dstFilename 128512 = "emoji_u1f600.svg" ∧
    dstFilename (n : Int) = "emoji_u" ++ pyHex04x (n : Int) ++ ".svg" ∧
    4 ≤ (pyHex04x (n : Int)).data.length ∧
    (∀ c ∈ (pyHex04x (n : Int)).data, c ∈ lowerHexChars) ∧
    pyIntHex (pyHex04x (n : Int)) = some (n : Int) := by
  obtain ⟨h1, h2, h3⟩ := pyHex04x_spec n
  exact ⟨rfl, rfl, by decide, rfl, h1, h2, h3⟩

/-- `replaceFirstValue` finds nothing when no record satisfies the
predicate. -/
theorem replaceFirstValue_none (p : NameRecord → Bool) (v : String) :
    ∀ tbl : List NameRecord, (∀ r ∈ tbl, p r = false) →
      replaceFirstValue p v tbl = none := by
  intro tbl h
  induction tbl with
  | nil => rfl
  | cons r rest ih =>
    rw [replaceFirstValue, if_neg (by rw [h r (by simp)]; simp)]
    rw [ih (fun r hr => h r (by simp [hr]))]
    rfl

/-- `setName` appends when no record carries the looked-up key. -/
theorem setName_append (tbl : List NameRecord) (v : String) (nid p e l : Nat)
    (h : ∀ r ∈ tbl, recMatches nid p e l r = false) :
    setName tbl v nid p e l = tbl ++ [⟨nid, p, e, l, v⟩] := by
  rw [setName, replaceFirstValue_none _ _ tbl h]

/-- Records surviving the `nameID` filter of `set_name_record` do not
carry that id. -/
theorem mem_filter_bne {tbl : List NameRecord} {nid : Nat} {r : NameRecord}
    (h : r ∈ tbl.filter (fun r => r.nameID != nid)) : (r.nameID == nid) = false := by
  have := (List.mem_filter.mp h).2
  simpa [bne_iff_ne, beq_eq_false_iff_ne] using this

/-- After `set_name_record tbl nid v`, the records carrying `nid` are
exactly the freshly written Windows and Macintosh pair. -/
theorem filter_snr_same (tbl : List NameRecord) (nid : Nat) (v : String) :
    (set_name_record tbl nid v).filter (fun r => r.nameID == nid) =
      [⟨nid, 3, 1, 0x409, v⟩, ⟨nid, 1, 0, 0x0, v⟩] := by
  rw [set_name_record]
  set t1 := tbl.filter (fun r => r.nameID != nid) with ht1
  have h1 : ∀ r ∈ t1, recMatches nid 3 1 0x409 r = false := by
    intro r hr
    rw [recMatches, mem_filter_bne hr]
    rfl
  rw [setName_append t1 v nid 3 1 0x409 h1]
  have h2 : ∀ r ∈ t1 ++ [⟨nid, 3, 1, 0x409, v⟩], recMatches nid 1 0 0x0 r = false := by
    intro r hr
    rcases List.mem_append.mp hr with hr | hr
    · rw [recMatches, mem_filter_bne hr]
      rfl
    · simp at hr
      rw [hr]
      simp [recMatches]
  rw [setName_append _ v nid 1 0 0x0 h2]
  rw [List.filter_append, List.filter_append]
  have h3 : t1.filter (fun r => r.nameID == nid) = [] := by
    rw [List.filter_eq_nil_iff]
    intro r hr
    rw [mem_filter_bne hr]
    simp
  rw [h3]
  simp

/-- Filtering for one id commutes away a filter dropping a different
id. -/
theorem filter_beq_of_filter_bne (tbl : List NameRecord) (nid m : Nat) (h : m ≠ nid) :
    (tbl.filter (fun r => r.nameID != m)).filter (fun r => r.nameID == nid) =
      tbl.filter (fun r => r.nameID == nid) := by
  induction tbl with
  | nil => rfl
  | cons r rest ih =>
    by_cases hr : r.nameID = nid
    · have hbm : (r.nameID != m) = true := by
        simp [bne_iff_ne, hr]
        exact fun hc => h hc.symm
      have hbn : (r.nameID == nid) = true := by simp [hr]
      simp [List.filter_cons, hbm, hbn, ih]
    · have hbn : (r.nameID == nid) = false := by simp [hr]
      by_cases hm : r.nameID = m
      · simp [List.filter_cons, hm, hbn, ih, h]
      · have hbm : (r.nameID != m) = true := by simp [bne_iff_ne, hm]
        simp [List.filter_cons, hbm, hbn, ih]

/-- `set_name_record` for a different id does not change which records
carry `nid`. -/
theorem filter_snr_other (tbl : List NameRecord) (m : Nat) (v : String) (nid : Nat)
    (h : m ≠ nid) :
    (set_name_record tbl m v).filter (fun r => r.nameID == nid) =
      tbl.filter (fun r => r.nameID == nid) := by
  rw [set_name_record]
  set t1 := tbl.filter (fun r => r.nameID != m) with ht1
  have h1 : ∀ r ∈ t1, recMatches m 3 1 0x409 r = false := by
    intro r hr
    rw [recMatches, mem_filter_bne hr]
    rfl
  rw [setName_append t1 v m 3 1 0x409 h1]
  have h2 : ∀ r ∈ t1 ++ [⟨m, 3, 1, 0x409, v⟩], recMatches m 1 0 0x0 r = false := by
    intro r hr
    rcases List.mem_append.mp hr with hr | hr
    · rw [recMatches, mem_filter_bne hr]
      rfl
    · simp at hr
      rw [hr]
      simp [recMatches]
  rw [setName_append _ v m 1 0 0x0 h2]
  rw [List.filter_append, List.filter_append]
  have hm : (m == nid) = false := by simp [h]
  have h4 : ([⟨m, 3, 1, 0x409, v⟩] : List NameRecord).filter
      (fun r => r.nameID == nid) = [] := by simp [List.filter_cons, hm]
  have h5 : ([⟨m, 1, 0, 0x0, v⟩] : List NameRecord).filter
      (fun r => r.nameID == nid) = [] := by simp [List.filter_cons, hm]
  rw [h4, h5, filter_beq_of_filter_bne tbl nid m h]
  simp

/-- Folding `set_name_record` over pairs none of which carry `nid`
leaves the `nid` records unchanged. -/
theorem fold_snr_not_mem (nid : Nat) :
    ∀ (ps : List (Nat × String)) (tbl : List NameRecord),
      nid ∉ ps.map Prod.fst →
      (ps.foldl (fun t p => set_name_record t p.1 p.2) tbl).filter
          (fun r => r.nameID == nid) =
        tbl.filter (fun r => r.nameID == nid) := by
  intro ps
  induction ps with
  | nil => intro tbl _; rfl
  | cons p rest ih =>
    intro tbl h
    simp only [List.map_cons, List.mem_cons] at h
    push_neg at h
    rw [List.foldl_cons, ih _ (by exact h.2), filter_snr_other tbl p.1 p.2 nid
      (fun hc => h.1 hc.symm)]

/-- Folding `set_name_record` over a duplicate-free field list writes,
for each listed id, exactly its Windows/Macintosh pair. -/
theorem fold_snr_mem (nid : Nat) (v : String) :
    ∀ (ps : List (Nat × String)) (tbl : List NameRecord),
      (ps.map Prod.fst).Nodup → (nid, v) ∈ ps →
      (ps.foldl (fun t p => set_name_record t p.1 p.2) tbl).filter
          (fun r => r.nameID == nid) =
        [⟨nid, 3, 1, 0x409, v⟩, ⟨nid, 1, 0, 0x0, v⟩] := by
  intro ps
  induction ps with
  | nil => intro tbl _ hmem; simp at hmem
  | cons p rest ih =>
    intro tbl hnodup hmem
    rw [List.map_cons, List.nodup_cons] at hnodup
    rcases List.mem_cons.mp hmem with hp | hp
    · rw [List.foldl_cons, ← hp]
      have hnot : nid ∉ rest.map Prod.fst := by
        rw [← hp] at hnodup
        exact hnodup.1
      rw [fold_snr_not_mem nid rest _ hnot, filter_snr_same]
    · exact ih _ hnodup.2 hp

/-- Claim C4: for each of the fourteen written naming fields, the table
after `apply_metadata` carries exactly two records with that id — the
Windows triple (3, 1, 0x409) and the Macintosh triple (1, 0, 0x0) —
both with one and the same value, every pre-existing record with that
id having been removed. -/
theorem C4_two_entries_per_field (font : FontModel) (config : FontConfig) (nid : Nat)
    (h : nid ∈ writtenNameIDs) :
    ∃ v, (apply_metadata font config).nameTable.filter (fun r => r.nameID == nid) =
      [⟨nid, 3, 1, 0x409, v⟩, ⟨nid, 1, 0, 0x0, v⟩] := by
  have hmap : (metadataFields config).map Prod.fst = writtenNameIDs := rfl
  have hnodup : ((metadataFields config).map Prod.fst).Nodup := by
    rw [hmap]
    decide
  rw [← hmap] at h
  obtain ⟨p, hp, hfst⟩ := List.mem_map.mp h
  refine ⟨p.2, ?_⟩
  have happ : (apply_metadata font config).nameTable =
      (metadataFields config).foldl (fun t p => set_name_record t p.1 p.2)
        font.nameTable := by
    simp only [apply_metadata]
  rw [happ]
  have hpair : (nid, p.2) = p := by
    rw [← hfst]
  exact fold_snr_mem nid p.2 (metadataFields config) font.nameTable hnodup
    (hpair ▸ hp)

/-- Witness for C4 at the family field (nameID 1) of the example font
and configuration. -/
theorem C4_witness :
    ∃ v, (apply_metadata exampleFont exampleConfig).nameTable.filter
        (fun r => r.nameID == 1) =
      [⟨1, 3, 1, 0x409, v⟩, ⟨1, 1, 0, 0x0, v⟩] :=
  C4_two_entries_per_field exampleFont exampleConfig 1 (by decide)

/-- Claim C8: the uniqueId written at nameID 3 is exactly
`vendorId;version;postscriptName`, where the vendor id is the first four
characters of the configured vendor id (or of "NONE" when it is absent,
which is "NONE" itself) and therefore at most four characters long. -/
theorem C8_unique_id_form (font : FontModel) (config : FontConfig) :
    (apply_metadata font config).nameTable.filter (fun r => r.nameID == 3) =
      [⟨3, 3, 1, 0x409, unique_id config.font⟩,
       ⟨3, 1, 0, 0x0, unique_id config.font⟩] ∧
    unique_id config.font =
      vendor_id config.font ++ ";" ++ config.font.version.getD "1.0" ++ ";" ++
        postscript_name config.font ∧
    vendor_id config.font = pyTake (config.font.vendorId.getD "NONE") 4 ∧
    (vendor_id config.font).data.length ≤ 4 ∧
    pyTake "NONE" 4 = "NONE" := by
  refine ⟨?_, rfl, rfl, ?_, by decide⟩
  · have hnodup : ((metadataFields config).map Prod.fst).Nodup := by
      rw [show (metadataFields config).map Prod.fst = writtenNameIDs from rfl]
      decide
    have happ : (apply_metadata font config).nameTable =
        (metadataFields config).foldl (fun t p => set_name_record t p.1 p.2)
          font.nameTable := by
      simp only [apply_metadata]
    rw [happ]
    exact fold_snr_mem 3 (unique_id config.font) (metadataFields config)
      font.nameTable hnodup (by simp [metadataFields, NAME_IDS])
  · show ((config.font.vendorId.getD "NONE").data.take 4).length ≤ 4
    rw [List.length_take]
    omega

/-- Claim C10: both the vendor-URL field (nameID 12) and the
designer-URL field (nameID 13) are written from the configuration's
`designerUrl` (empty when absent), so they always carry identical
values. -/
theorem C10_vendor_url_equals_designer_url (font : FontModel) (config : FontConfig) :
    (apply_metadata font config).nameTable.filter (fun r => r.nameID == 12) =
      [⟨12, 3, 1, 0x409, config.font.designerUrl.getD ""⟩,
       ⟨12, 1, 0, 0x0, config.font.designerUrl.getD ""⟩] ∧
    (apply_metadata font config).nameTable.filter (fun r => r.nameID == 13) =
      [⟨13, 3, 1, 0x409, config.font.designerUrl.getD ""⟩,
       ⟨13, 1, 0, 0x0, config.font.designerUrl.getD ""⟩] := by
  have hnodup : ((metadataFields config).map Prod.fst).Nodup := by
    rw [show (metadataFields config).map Prod.fst = writtenNameIDs from rfl]
    decide
  have happ : (apply_metadata font config).nameTable =
      (metadataFields config).foldl (fun t p => set_name_record t p.1 p.2)
        font.nameTable := by
    simp only [apply_metadata]
  constructor
  · rw [happ]
    exact fold_snr_mem 12 (config.font.designerUrl.getD "") (metadataFields config)
      font.nameTable hnodup (by simp [metadataFields, NAME_IDS])
  · rw [happ]
    exact fold_snr_mem 13 (config.font.designerUrl.getD "") (metadataFields config)
      font.nameTable hnodup (by simp [metadataFields, NAME_IDS])

/-- Codepoint resolution fails only with a `ValueError`, one of the
spec's `GlyphResolutionError` kinds. -/
theorem resolve_error_kind (x : CodepointVal) (e : BuildError)
    (h : resolveCodepoint x = .error e) : isGlyphResolutionError e = true := by
  match x with
  | .int n => simp [resolveCodepoint] at h
  | .str s =>
    rcases hp : pyIntHex s with - | n <;> rw [resolveCodepoint, hp] at h
    · cases h
      rfl
    · cases h

/-- When some glyph's SVG file is missing, the copy loop raises an
exception of the spec's `GlyphResolutionError` kind. -/
theorem copy_error_of_missing (svgFiles : List String) :
    ∀ glyphs : List GlyphEntry, (∃ g ∈ glyphs, g.file ∉ svgFiles) →
      ∃ e, mapExcept (copyOneGlyph svgFiles) glyphs = .error e ∧
        isGlyphResolutionError e = true := by
  intro glyphs
  induction glyphs with
  | nil => rintro ⟨g, hg, -⟩; simp at hg
  | cons g rest ih =>
    rintro ⟨g', hg', hnot⟩
    rcases hres : resolveCodepoint g.codepoint with e | cp
    · refine ⟨e, ?_, resolve_error_kind _ _ hres⟩
      simp [mapExcept, copyOneGlyph, hres]
    · by_cases hf : g.file ∈ svgFiles
      · have hg'' : g' ∈ rest := by
          rcases List.mem_cons.mp hg' with h | h
          · exact absurd (h ▸ hf) hnot
          · exact h
        obtain ⟨e, herr, hkind⟩ := ih ⟨g', hg'', hnot⟩
        refine ⟨e, ?_, hkind⟩
        simp [mapExcept, copyOneGlyph, hres, hf, herr]
      · refine ⟨.fileNotFound g.file, ?_, rfl⟩
        simp [mapExcept, copyOneGlyph, hres, hf]

/-- The compiler stage when some copy fails: the error propagates and
the `finally` block removes the scratch directory and the TOML file;
the compiler-invocation flag is untouched. -/
theorem bwn_of_copy_error (config : FontConfig) (svgFiles : List String)
    (compilerExit : Nat) (s : FSState) (e : BuildError)
    (h : mapExcept (copyOneGlyph svgFiles) config.glyphs = .error e) :
    build_with_nanoemoji config svgFiles compilerExit s =
      (.error e, { s with scratchExists := false, tomlExists := false }) := by
  simp [build_with_nanoemoji, h]

/-- The compiler stage when every copy succeeds but the compiler exits
non-zero: a `CalledProcessError` propagates, with the same cleanup. -/
theorem bwn_of_compiler_failure (config : FontConfig) (svgFiles : List String)
    (compilerExit : Nat) (s : FSState) (ws : List String)
    (h : mapExcept (copyOneGlyph svgFiles) config.glyphs = .ok ws)
    (hexit : compilerExit ≠ 0) :
    build_with_nanoemoji config svgFiles compilerExit s =
      (.error (.calledProcessError compilerExit),
       { s with scratchExists := false, tomlExists := false, compilerInvoked := true }) := by
  simp [build_with_nanoemoji, h, hexit]

/-- Claim C5: on every exit path of the compiler-adapter stage —
success, compiler failure, or a failure while copying an SVG into the
scratch directory — both the scratch SVG directory and the TOML build
description are gone when the stage returns or propagates its error. -/
theorem C5_scratch_and_toml_always_removed (config : FontConfig)
    (svgFiles : List String) (compilerExit : Nat) (s : FSState) :
    (build_with_nanoemoji config svgFiles compilerExit s).2.scratchExists = false ∧
    (build_with_nanoemoji config svgFiles compilerExit s).2.tomlExists = false := by
  rcases hm : mapExcept (copyOneGlyph svgFiles) config.glyphs with e | ws
  · rw [bwn_of_copy_error config svgFiles compilerExit s e hm]
    exact ⟨rfl, rfl⟩
  · by_cases hexit : compilerExit = 0
    · subst hexit
      constructor <;> simp [build_with_nanoemoji, hm]
    · rw [bwn_of_compiler_failure config svgFiles compilerExit s ws hm hexit]
      exact ⟨rfl, rfl⟩

/-- Claim C2: a configuration referencing an SVG file absent from the
supplied directory makes the whole build abort with an error of the
spec's `GlyphResolutionError` kind; the external compiler is never
invoked, and the scratch directory no longer exists afterwards. -/
theorem C2_missing_svg_aborts (config : FontConfig) (svgFiles : List String)
    (compilerExit : Nat) (outputPath : String)
    (h : ∃ g ∈ config.glyphs, g.file ∉ svgFiles) :
    ∃ e, (build_font config svgFiles compilerExit outputPath).1 = .error e ∧
      isGlyphResolutionError e = true ∧
      (build_font config svgFiles compilerExit outputPath).2.1.compilerInvoked = false ∧
      (build_font config svgFiles compilerExit outputPath).2.1.scratchExists = false := by
  obtain ⟨e, hm, hkind⟩ := copy_error_of_missing svgFiles config.glyphs h
  refine ⟨e, ?_, hkind, ?_, ?_⟩ <;>
    simp [build_font,
      bwn_of_copy_error config svgFiles compilerExit
        ⟨false, false, true, false, false, false⟩ e hm,
      initState]

/-- Witness for C2: the example configuration against a directory
holding only `a.svg` (so `b.svg` is missing). -/
theorem C2_witness :
    ∃ e, (build_font exampleConfig ["a.svg"] 0 "out/ClipMate.ttf").1 = .error e ∧
      isGlyphResolutionError e = true ∧
      (build_font exampleConfig ["a.svg"] 0 "out/ClipMate.ttf").2.1.compilerInvoked = false ∧
      (build_font exampleConfig ["a.svg"] 0 "out/ClipMate.ttf").2.1.scratchExists = false :=
  C2_missing_svg_aborts exampleConfig ["a.svg"] 0 "out/ClipMate.ttf" (by decide)

/-- Claim C3: when the external compiler exits non-zero, the run aborts
with the spec's fatal `CompilationError`; neither the output font nor
`preview.html` is written, and the scratch directory, the TOML build
description and the temporary font path are all removed. -/
theorem C3_compiler_failure_aborts (config : FontConfig) (svgFiles : List String)
    (compilerExit : Nat) (outputPath : String)
    (h1 : compilerExit ≠ 0)
    (h2 : exceptIsOk (mapExcept (copyOneGlyph svgFiles) config.glyphs) = true) :
    (build_font config svgFiles compilerExit outputPath).1 =
      .error (.calledProcessError compilerExit) ∧
    isCompilationError (.calledProcessError compilerExit) = true ∧
    (build_font config svgFiles compilerExit outputPath).2.1.outputWritten = false ∧
    (build_font config svgFiles compilerExit outputPath).2.1.previewWritten = false ∧
    (build_font config svgFiles compilerExit outputPath).2.2 = none ∧
    (build_font config svgFiles compilerExit outputPath).2.1.scratchExists = false ∧
    (build_font config svgFiles compilerExit outputPath).2.1.tomlExists = false ∧
    (build_font config svgFiles compilerExit outputPath).2.1.tempFontExists = false := by
  obtain ⟨ws, hm⟩ : ∃ ws, mapExcept (copyOneGlyph svgFiles) config.glyphs = .ok ws := by
    rcases hm : mapExcept (copyOneGlyph svgFiles) config.glyphs with e | ws
    · rw [hm] at h2
      cases h2
    · exact ⟨ws, rfl⟩
  refine ⟨?_, rfl, ?_, ?_, ?_, ?_, ?_, ?_⟩ <;>
    simp [build_font,
      bwn_of_compiler_failure config svgFiles compilerExit
        ⟨false, false, true, false, false, false⟩ ws hm h1,
      initState]

/-- Witness for C3: the example configuration with every SVG present
and a compiler exiting with status 1. -/
theorem C3_witness :
    (build_font exampleConfig exampleSvgFiles 1 "out/ClipMate.ttf").1 =
      .error (.calledProcessError 1) ∧
    isCompilationError (.calledProcessError 1) = true ∧
    (build_font exampleConfig exampleSvgFiles 1 "out/ClipMate.ttf").2.1.outputWritten = false ∧
    (build_font exampleConfig exampleSvgFiles 1 "out/ClipMate.ttf").2.1.previewWritten = false ∧
    (build_font exampleConfig exampleSvgFiles 1 "out/ClipMate.ttf").2.2 = none ∧
    (build_font exampleConfig exampleSvgFiles 1 "out/ClipMate.ttf").2.1.scratchExists = false ∧
    (build_font exampleConfig exampleSvgFiles 1 "out/ClipMate.ttf").2.1.tomlExists = false ∧
    (build_font exampleConfig exampleSvgFiles 1 "out/ClipMate.ttf").2.1.tempFontExists = false :=
  C3_compiler_failure_aborts exampleConfig exampleSvgFiles 1 "out/ClipMate.ttf"
    (by decide) (by decide)

/-- A computation with `exceptIsOk` holds some value. -/
theorem exceptIsOk_exists {ε α : Type} {x : Except ε α} (h : exceptIsOk x = true) :
    ∃ b, x = .ok b := by
  cases x with
  | error e => cases h
  | ok b => exact ⟨b, rfl⟩

/-- `mapExcept` over a list on which `f` always succeeds: it returns a
list of the same length whose `i`-th entry is `f` of the `i`-th input. -/
theorem mapExcept_ok_of_all {α β ε : Type} (f : α → Except ε β) :
    ∀ l : List α, (∀ a ∈ l, exceptIsOk (f a) = true) →
      ∃ bs, mapExcept f l = .ok bs ∧ bs.length = l.length ∧
        ∀ (i : Nat) (hi : i < l.length) (hi' : i < bs.length),
          f (l.get ⟨i, hi⟩) = .ok (bs.get ⟨i, hi'⟩) := by
  intro l
  induction l with
  | nil =>
    intro _
    refine ⟨[], rfl, rfl, ?_⟩
    intro i hi
    simp at hi
  | cons a rest ih =>
    intro h
    obtain ⟨b, hb⟩ := exceptIsOk_exists (h a (by simp))
    obtain ⟨bs, hbs, hlen, hidx⟩ := ih (fun a ha => h a (by simp [ha]))
    refine ⟨b :: bs, ?_, by simp [hlen], ?_⟩
    · simp [mapExcept, hb, hbs]
    · intro i hi hi'
      match i with
      | 0 => exact hb
      | i + 1 =>
        exact hidx i (by simp at hi; omega) (by simp at hi'; omega)

/-- When the glyph's codepoint resolves, its card is
`glyphCardString`. -/
theorem glyphCardOf_ok (g : GlyphEntry)
    (h : exceptIsOk (resolveCodepoint g.codepoint) = true) :
    ∃ cp, resolveCodepoint g.codepoint = .ok cp ∧
      glyphCardOf g = .ok (glyphCardString cp (g.name.getD "unknown")) := by
  obtain ⟨cp, hcp⟩ := exceptIsOk_exists h
  exact ⟨cp, hcp, by simp [glyphCardOf, hcp]⟩

/-- Every glyph card shows the glyph's character reference, its display
name, and its codepoint in `U+XXXX` form. -/
theorem glyphCard_substrs (cp : Int) (nm : String) :
    substrOf (charRef cp) (glyphCardString cp nm) ∧
    substrOf nm (glyphCardString cp nm) ∧
    substrOf (uLabel cp) (glyphCardString cp nm) := by
  refine ⟨⟨cardChunkA, cardChunkB ++ nm ++ cardChunkC ++ uLabel cp ++ cardChunkD, ?_⟩,
          ⟨cardChunkA ++ charRef cp ++ cardChunkB, cardChunkC ++ uLabel cp ++ cardChunkD, ?_⟩,
          ⟨cardChunkA ++ charRef cp ++ cardChunkB ++ nm ++ cardChunkC, cardChunkD, ?_⟩⟩ <;>
    simp [glyphCardString, String.append_assoc]

/-- Claim C7: for a configuration with N resolvable glyphs, the preview
document embeds exactly N glyph cards, joined in configuration order,
the i-th card being the card of the i-th glyph and showing its
character reference, display name and `U+XXXX` codepoint. -/
theorem C7_preview_has_one_card_per_glyph (config : FontConfig)
    (h : ∀ g ∈ config.glyphs, exceptIsOk (resolveCodepoint g.codepoint) = true) :
    ∃ (cards : List String) (html pre post : String),
      generate_preview_html config = .ok html ∧
      mapExcept glyphCardOf config.glyphs = .ok cards ∧
      html = pre ++ String.intercalate "\n" cards ++ post ∧
      cards.length = config.glyphs.length ∧
      ∀ (i : Nat) (hi : i < config.glyphs.length) (hi' : i < cards.length),
        ∃ cp, resolveCodepoint (config.glyphs.get ⟨i, hi⟩).codepoint = .ok cp ∧
          cards.get ⟨i, hi'⟩ =
            glyphCardString cp ((config.glyphs.get ⟨i, hi⟩).name.getD "unknown") ∧
          substrOf (charRef cp) (cards.get ⟨i, hi'⟩) ∧
          substrOf ((config.glyphs.get ⟨i, hi⟩).name.getD "unknown") (cards.get ⟨i, hi'⟩) ∧
          substrOf (uLabel cp) (cards.get ⟨i, hi'⟩) := by
  have hcardsok : ∀ g ∈ config.glyphs, exceptIsOk (glyphCardOf g) = true := by
    intro g hg
    obtain ⟨cp, _, hcard⟩ := glyphCardOf_ok g (h g hg)
    rw [hcard]
    rfl
  obtain ⟨cards, hm, hlen, hidx⟩ := mapExcept_ok_of_all glyphCardOf config.glyphs hcardsok
  have htake : ∀ g ∈ config.glyphs.take 5, exceptIsOk (resolveCodepoint g.codepoint) = true :=
    fun g hg => h g (List.take_subset 5 config.glyphs hg)
  obtain ⟨testRefs, hm2, -, -⟩ := mapExcept_ok_of_all
    (fun g => match resolveCodepoint g.codepoint with
      | .error e => .error e
      | .ok cp => .ok (charRef cp)) (config.glyphs.take 5)
    (by
      intro g hg
      obtain ⟨cp, hcp⟩ := exceptIsOk_exists (htake g hg)
      simp [hcp]
      rfl)
  obtain ⟨hintRefs, hm3, -, -⟩ := mapExcept_ok_of_all
    (fun g => match resolveCodepoint g.codepoint with
      | .error e => .error e
      | .ok cp => .ok (ampRef cp)) (config.glyphs.take 5)
    (by
      intro g hg
      obtain ⟨cp, hcp⟩ := exceptIsOk_exists (htake g hg)
      simp [hcp]
      rfl)
  obtain ⟨fcp, hfcp⟩ : ∃ fcp,
      resolveCodepoint
        (match config.glyphs with
         | [] => CodepointVal.str "0xE000"
         | g :: _ => g.codepoint) = .ok fcp := by
    rcases hg : config.glyphs with - | ⟨g, rest⟩
    · exact ⟨0xE000, rfl⟩
    · refine exceptIsOk_exists (h g ?_)
      rw [hg]
      simp
  refine ⟨cards, _, previewPrefix config,
    previewSuffix config fcp (String.join testRefs)
      (String.intercalate " " hintRefs), ?_, hm, rfl, hlen, ?_⟩
  · simp only [generate_preview_html, hm, hfcp, hm2, hm3]
  · intro i hi hi'
    obtain ⟨cp, hcp, hcard⟩ := glyphCardOf_ok (config.glyphs.get ⟨i, hi⟩)
      (h _ (config.glyphs.get_mem _ _))
    have := hidx i hi hi'
    rw [hcard] at this
    have hval : cards.get ⟨i, hi'⟩ =
        glyphCardString cp ((config.glyphs.get ⟨i, hi⟩).name.getD "unknown") :=
      (Except.ok.inj this).symm
    obtain ⟨hs1, hs2, hs3⟩ := glyphCard_substrs cp
      ((config.glyphs.get ⟨i, hi⟩).name.getD "unknown")
    exact ⟨cp, hcp, hval, by rw [hval]; exact hs1, by rw [hval]; exact hs2,
      by rw [hval]; exact hs3⟩

/-- Witness for C7 at the example configuration. -/
theorem C7_witness :
    ∃ (cards : List String) (html pre post : String),
      generate_preview_html exampleConfig = .ok html ∧
      mapExcept glyphCardOf exampleConfig.glyphs = .ok cards ∧
      html = pre ++ String.intercalate "\n" cards ++ post ∧
      cards.length = exampleConfig.glyphs.length ∧
      ∀ (i : Nat) (hi : i < exampleConfig.glyphs.length) (hi' : i < cards.length),
        ∃ cp, resolveCodepoint (exampleConfig.glyphs.get ⟨i, hi⟩).codepoint = .ok cp ∧
          cards.get ⟨i, hi'⟩ =
            glyphCardString cp ((exampleConfig.glyphs.get ⟨i, hi⟩).name.getD "unknown") ∧
          substrOf (charRef cp) (cards.get ⟨i, hi'⟩) ∧
          substrOf ((exampleConfig.glyphs.get ⟨i, hi⟩).name.getD "unknown")
            (cards.get ⟨i, hi'⟩) ∧
          substrOf (uLabel cp) (cards.get ⟨i, hi'⟩) :=
  C7_preview_has_one_card_per_glyph exampleConfig (by decide)

/-- Claim C9: the preview page's `@font-face` rule loads the fixed URL
`ClipMate.ttf`.  The page text is the same function of the configuration
whatever output path the CLI received (the generator never sees that
path), the generated document always contains the literal
`src: url('ClipMate.ttf');` line, and that line names no other basename:
for any `b` other than `ClipMate.ttf`, the source line differs from
`src: url('b');`. -/
theorem C9_preview_font_url_is_fixed (config : FontConfig) (svgFiles : List String)
    (compilerExit : Nat) (p1 p2 : String) :
    (build_font config svgFiles compilerExit p1).2.2 =
      (build_font config svgFiles compilerExit p2).2.2 ∧
    previewFontUrl = "ClipMate.ttf" ∧
    substrOf fontSrcLine (previewPrefix config) ∧
    (∀ html, generate_preview_html config = .ok html → substrOf fontSrcLine html) ∧
    (∀ b : String, b ≠ previewFontUrl →
      fontSrcLine ≠ "src: url(\x27" ++ b ++ "\x27);") := by
  have hpre : substrOf fontSrcLine (previewPrefix config) := by
    refine ⟨pv00 ++ config.font.name ++ pv01 ++ config.font.name ++ pv02, ?_, ?_⟩
    · exact pv03 ++ config.font.name ++ pv04 ++ config.font.name ++ pv05 ++
        config.font.name ++ pv06 ++ config.font.name ++ pv07 ++
        config.font.description.getD "Color Emoji Icons" ++ pv08 ++ config.font.name ++
        pv09 ++ config.font.version.getD "1.0" ++ pv10 ++
        config.font.designer.getD "Unknown" ++ pv11 ++
        toString config.glyphs.length ++ pv12 ++
        pyReplace (pyReplace (config.colorFormat.getD "glyf_colr_1")
          "glyf_colr_" "COLR v") "_" " " ++ pv13 ++
        config.font.license.getD "Unknown" ++ pv14
    · simp [previewPrefix, String.append_assoc]
  refine ⟨rfl, rfl, hpre, ?_, ?_⟩
  · intro html hh
    rcases hm : mapExcept glyphCardOf config.glyphs with e | cards
    · rw [generate_preview_html, hm] at hh
      cases hh
    · rcases hfc : resolveCodepoint
          (match config.glyphs with
           | [] => CodepointVal.str "0xE000"
           | g :: _ => g.codepoint) with e | fcp
      · rw [generate_preview_html, hm] at hh
        simp only [hfc] at hh
        cases hh
      · rcases hm2 : mapExcept
            (fun g => match resolveCodepoint g.codepoint with
              | .error e => .error e
              | .ok cp => .ok (charRef cp)) (config.glyphs.take 5) with e | testRefs
        · rw [generate_preview_html, hm] at hh
          simp only [hfc, hm2] at hh
          cases hh
        · rcases hm3 : mapExcept
              (fun g => match resolveCodepoint g.codepoint with
                | .error e => .error e
                | .ok cp => .ok (ampRef cp)) (config.glyphs.take 5) with e | hintRefs
          · rw [generate_preview_html, hm] at hh
            simp only [hfc, hm2, hm3] at hh
            cases hh
          · rw [generate_preview_html, hm] at hh
            simp only [hfc, hm2, hm3] at hh
            have hhtml : previewPrefix config ++ String.intercalate "\n" cards ++
                previewSuffix config fcp (String.join testRefs)
                  (String.intercalate " " hintRefs) = html := Except.ok.inj hh
            obtain ⟨p, q, hpq⟩ := hpre
            refine ⟨p, q ++ String.intercalate "\n" cards ++
              previewSuffix config fcp (String.join testRefs)
                (String.intercalate " " hintRefs), ?_⟩
            rw [← hhtml, hpq]
            simp [String.append_assoc]
  · intro b hb heq
    apply hb
    have hdata := congrArg String.data heq
    simp only [String.data_append, fontSrcLine] at hdata
    have h2 : previewFontUrl.data ++ ("\x27);" : String).data =
        b.data ++ ("\x27);" : String).data := by
      have := List.append_cancel_left
        (by simpa [String.data_append, List.append_assoc] using hdata :
          ("src: url(\x27" : String).data ++ (previewFontUrl.data ++ ("\x27);" : String).data) =
          ("src: url(\x27" : String).data ++ (b.data ++ ("\x27);" : String).data))
      exact this
    have h3 : previewFontUrl.data = b.data := List.append_cancel_right h2
    show b = "ClipMate.ttf"
    have : b = previewFontUrl := String.ext h3.symm
    rw [this]
    rfl

end BuildColorFont
